import Mathlib

/-!
Verification of the `corejam` command-line helper (`src/corejam/argparse.py`).

The repository consists of a customized argument parser (`CustomArgParser`)
overriding usage / version / error presentation, and a context-manager run
guard (`jam_parser`) that short-circuits the no-argument and version-flag
invocations, initializes logging, yields the parsed arguments to caller code
and maps every failure to a fixed exit code.

The embedding is shallow: each method becomes a pure function returning the
text it writes together with the exit status it causes; the run guard becomes
a function from the invocation data (argument vector tail, the grammar
engine's verdict, the behaviour of the scoped caller block, the traceback
text) to an effect trace (stdout, stderr, the two log channels, the
logger-setup call, the number of `parse_args` invocations, the yielded
arguments) and an outcome (process exit with a code, or normal completion of
the scoped block).
-/

namespace Corejam

/-- Modelled from the spec: the external terminal-colouring collaborator
`colour` of `corejam.logging` (not under `src/`). It wraps `text` in colour
markers for foreground colour `fg`; we encode the markers with the control
characters `\x01` (open), `\x02` (end of colour name) and `\x03` (reset),
which cannot occur in ordinary banner text. -/
def colour (text : String) (fg : String) : String :=
  "\x01" ++ fg ++ "\x02" ++ text ++ "\x03"

/-- Character opening a colour tag in the `colour` encoding. -/
def cOpen : Char := '\x01'

/-- Character closing the colour-name part of a tag. -/
def cMid : Char := '\x02'

/-- Character resetting the colour in the `colour` encoding. -/
def cEnd : Char := '\x03'

/-- Drops the colour markers from a character list; the flag records whether
we are inside a colour-name tag (whose characters are not text). -/
def stripTags : Bool → List Char → List Char
  | _, [] => []
  | inTag, c :: cs =>
    if c = cOpen then stripTags true cs
    else if c = cMid then stripTags false cs
    else if c = cEnd then stripTags false cs
    else if inTag then stripTags true cs
    else c :: stripTags false cs

/-- Text of a string with all colour codes removed. -/
def uncolour (s : String) : String :=
  String.mk (stripTags false s.data)

/-- Rendering of an optional string the way a Python f-string renders an
attribute: `None` becomes the literal text `"None"`. -/
def pyStr : Option String → String
  | none => "None"
  | some s => s

/-- Output stream of a write performed by the parser (Python `sys.stdout` /
`sys.stderr`). -/
inductive OutStream
  | stdout
  | stderr
deriving DecidableEq, Repr

/-- The parser state added by `CustomArgParser.__init__`: the program name
kept by the base parser and the two extra fields popped from the keyword
arguments (`ver`, `url`), `none` when the keyword was absent. -/
structure CustomArgParser where
  prog : String
  _version : Option String
  _url : Option String
deriving DecidableEq, Repr

namespace CustomArgParser

/-- Constructor mirroring `__init__`: `_version` is the `ver` keyword if
given else `None`, `_url` is the `url` keyword if given else `None`. -/
def init (prog : String) (ver : Option String) (url : Option String) : CustomArgParser :=
  ⟨prog, ver, url⟩

/-- Mirror of `print_usage(file)`: the stream written to (defaulting to
standard output when `file` is `None`) and the text written, which is the
newline-join of the three banner lines. -/
def print_usage (p : CustomArgParser) (file : Option OutStream) : OutStream × String :=
  let target := match file with
    | none => OutStream.stdout
    | some f => f
  let lines : List String :=
    ["  " ++ colour (p.prog ++ " v" ++ pyStr p._version) "blue",
     "  " ++ pyStr p._url,
     ""]
  (target, String.intercalate "\n" lines)

/-- Mirror of `print_version()`: the (unchanged) parser state and the single
coloured line written to standard output. -/
def print_version (p : CustomArgParser) : CustomArgParser × String :=
  (p, colour (p.prog ++ " v" ++ pyStr p._version) "blue" ++ "\n")

/-- Mirror of `exit(status, message)` (Python defaults: `status=0`,
`message=None`): the text written to standard error (empty when the message
is absent or falsy) and the status passed to `sys.exit`. -/
def exit (status : Nat) (message : Option String) : String × Nat :=
  (match message with
   | none => ""
   | some m => if m = "" then "" else colour m "red" ++ "\n",
   status)

/-- Mirror of `error(message)`: writes the usage banner to standard error,
then exits with status `2` and the bracketed message (`gettext` is the
identity on the untranslated template). -/
def error (p : CustomArgParser) (message : String) : String × Nat :=
  let usage := (print_usage p (some OutStream.stderr)).2
  let ex := exit 2 (some ("[" ++ p.prog ++ "] Error: " ++ message ++ "\n"))
  (usage ++ ex.1, ex.2)

end CustomArgParser

/-- The parsed-argument attributes the run guard inspects: `out_dir` and
`debug`, each `none` when the attribute is absent from the namespace. -/
structure Args where
  out_dir : Option String
  debug : Option Bool
deriving DecidableEq, Repr

/-- Modelled from the spec: the arguments of the single `logger_setup` call
of `corejam.logging` (not under `src/`) — output directory or none, log
filename derived from the title, title, version, a fixed flag, debug flag. -/
structure LoggerSetupCall where
  outDir : Option String
  logFile : String
  title : String
  version : String
  fixedFlag : Bool
  debug : Bool
deriving DecidableEq, Repr

/-- Modelled from the spec: the exceptions the caller block can raise —
a keyboard interrupt, a domain exception (`JAMException` of
`corejam.exceptions`, not under `src/`; carrying its concrete type name and
its message), or any other exception (type name and message). -/
inductive Exc
  | keyboardInterrupt
  | jam (tyName : String) (msg : String)
  | other (tyName : String) (msg : String)
deriving DecidableEq, Repr

/-- Behaviour of the scoped caller block: normal completion or an
exception. -/
inductive BodyResult
  | ok
  | raised (e : Exc)
deriving DecidableEq, Repr

/-- Verdict of the external grammar engine on `parser.parse_args()`:
a parsed namespace, or a rejection with an error message (upon which the
engine invokes `parser.error(message)`). -/
inductive ParseOutcome
  | ok (args : Args)
  | reject (message : String)
deriving DecidableEq, Repr

/-- Outcome of one run-guard invocation: a `sys.exit` with the given code,
or normal completion of the scoped block (no exit from the guard). -/
inductive Outcome
  | exited (code : Nat)
  | completed
deriving DecidableEq, Repr

/-- Effect trace of one run-guard invocation. -/
structure GuardTrace where
  stdout : String
  stderr : String
  defaultLog : List String
  warnLog : List String
  loggerInit : Option LoggerSetupCall
  parseCalls : Nat
  yielded : Option Args
deriving DecidableEq, Repr

/-- Trace with no effects. -/
def emptyTrace : GuardTrace :=
  ⟨"", "", [], [], none, 0, none⟩

/-- The recognized version flags. -/
def versionFlags : List String :=
  ["-v", "--v", "-version", "--version"]

/-- Separator line of 80 copies of a character. -/
def sep80 (c : Char) : String :=
  String.mk (List.replicate 80 c)

/-- The structured block written to the warnings log channel by both
exception handlers of `jam_parser` (the source uses the same text, header
included, in both branches). -/
def warnBlock (tyName : String) (msg : String) (tb : String) : String :=
  "Controlled exit resulting from an unrecoverable error or warning.\n\n"
    ++ sep80 '=' ++ "\n"
    ++ "EXCEPTION: " ++ tyName ++ "\n"
    ++ "  MESSAGE: " ++ msg ++ "\n"
    ++ sep80 '_' ++ "\n\n"
    ++ tb
    ++ sep80 '='

/-- Mirror of the `jam_parser` context manager. `argvTail` is `sys.argv[1:]`
(the program name itself is not part of it), `parse` the grammar engine's
verdict on this argument vector, `body` the behaviour of the scoped caller
block, and `tb` the text `traceback.format_exc()` yields inside a handler.
Returns the effect trace and the outcome. `sys.exit` calls raise
`SystemExit`, which none of the three handlers catches, so the short-circuit
branches terminate directly. On the parse branch `parse_args` is invoked
twice — once for the logger setup and once in the yield expression — and the
second (identical, the engine being deterministic) result is yielded. -/
def jamParser (p : CustomArgParser) (title : String) (version : String)
    (argvTail : List String) (parse : ParseOutcome) (body : BodyResult)
    (tb : String) : GuardTrace × Outcome :=
  match argvTail with
  | [] =>
    (⟨(CustomArgParser.print_usage p none).2, "", [], [], none, 0, none⟩, .exited 1)
  | a :: _ =>
    if a ∈ versionFlags then
      (⟨(CustomArgParser.print_version p).2, "", [], [], none, 0, none⟩, .exited 0)
    else
      match parse with
      | .reject m =>
        let e := CustomArgParser.error p m
        (⟨"", e.1, [], [], none, 1, none⟩, .exited e.2)
      | .ok args =>
        let setup : LoggerSetupCall :=
          ⟨args.out_dir, title ++ ".log", title, version, false,
           (match args.debug with | none => false | some b => b)⟩
        match body with
        | .ok =>
          (⟨"", "", [], [], some setup, 2, some args⟩, .completed)
        | .raised .keyboardInterrupt =>
          (⟨"", "", ["Controlled exit resulting from keyboard interrupt."], [],
            some setup, 2, some args⟩, .exited 1)
        | .raised (.jam tyName msg) =>
          (⟨"", "",
            (if msg.length > 0 then [msg] else []) ++
              ["Controlled exit resulting from an unrecoverable error or warning (see warnings.log)."],
            [warnBlock tyName msg tb],
            some setup, 2, some args⟩, .exited 1)
        | .raised (.other tyName msg) =>
          (⟨"", "",
            (if msg.length > 0 then [msg] else []) ++
              ["Uncontrolled exit resulting from an unexpected error (see warnings.log)."],
            [warnBlock tyName msg tb],
            some setup, 2, some args⟩, .exited 1)

/-- The scoped caller block is reached (and hence its behaviour matters)
exactly when arguments are present, the first is not a version flag and the
grammar engine accepts the argument vector. -/
def scopedBlockRuns (argvTail : List String) (parse : ParseOutcome) : Prop :=
  ∃ a rest args, argvTail = a :: rest ∧ a ∉ versionFlags ∧ parse = .ok args

/-- Concrete parser used to instantiate the universally quantified
theorems. -/
def demoP : CustomArgParser :=
  CustomArgParser.init "demo" (some "1.2.3") (some "https://example.org")

/-- Concrete parsed-argument namespace used to instantiate the universally
quantified theorems. -/
def demoArgs : Args :=
  ⟨none, none⟩

/-- C2: for every invocation of `jam_parser` with zero command-line
arguments supplied, the usage banner is printed, the process terminates with
exit code 1, and full argument parsing is never attempted. -/
theorem jamParser_no_arguments (p : CustomArgParser) (title version : String)
    (parse : ParseOutcome) (body : BodyResult) (tb : String) :
    (jamParser p title version [] parse body tb).1.stdout
        = (CustomArgParser.print_usage p none).2 ∧
    (jamParser p title version [] parse body tb).1.parseCalls = 0 ∧
    (jamParser p title version [] parse body tb).2 = .exited 1 :=
  ⟨rfl, rfl, rfl⟩

/-- C3: for every invocation whose first command-line argument is one of
`-v`, `--v`, `-version`, `--version`, the version banner is printed and the
process terminates with exit code 0, regardless of any other arguments
present; full parsing is not attempted. -/
theorem jamParser_version_flag (p : CustomArgParser) (title version : String)
    (a : String) (rest : List String) (parse : ParseOutcome) (body : BodyResult)
    (tb : String) (h : a ∈ versionFlags) :
    (jamParser p title version (a :: rest) parse body tb).1.stdout
        = (CustomArgParser.print_version p).2 ∧
    (jamParser p title version (a :: rest) parse body tb).1.parseCalls = 0 ∧
    (jamParser p title version (a :: rest) parse body tb).2 = .exited 0 := by
  simp [jamParser, if_pos h]

/-- Witness for C3 at the flag `-v` with an extra argument present. -/
theorem jamParser_version_flag_witness :
    "-v" ∈ versionFlags ∧
    (jamParser demoP "demo" "1.2.3" ["-v", "extra"] (.ok demoArgs) .ok "").2
        = .exited 0 :=
  ⟨by decide,
   (jamParser_version_flag demoP "demo" "1.2.3" "-v" ["extra"] (.ok demoArgs)
      .ok "" (by decide)).2.2⟩

/-- C7 (evaluation at the failing input): on the successful parse path the
code invokes `parse_args` twice — once feeding the logger setup and once in
the yield expression — and yields the second result, contradicting the
claim that the parsed mapping is produced exactly once. -/
theorem jamParser_parse_args_called_twice :
    (jamParser demoP "demo" "1.2.3" ["--debug"] (.ok demoArgs) .ok "").1.parseCalls
        = 2 ∧
    (jamParser demoP "demo" "1.2.3" ["--debug"] (.ok demoArgs) .ok "").1.yielded
        = some demoArgs := by
  constructor <;> rfl

/-- C8: `print_usage` writes exactly the newline-join of the three banner
lines — the coloured `<prog> v<version>` line, the URL line and a blank
line — to the given stream, defaulting to standard output when the stream
argument is unspecified. -/
theorem print_usage_three_line_banner (p : CustomArgParser) (file : Option OutStream) :
    (CustomArgParser.print_usage p file).1 = file.getD OutStream.stdout ∧
    (CustomArgParser.print_usage p file).2
        = String.intercalate "\n"
            ["  " ++ colour (p.prog ++ " v" ++ pyStr p._version) "blue",
             "  " ++ pyStr p._url,
             ""] := by
  refine ⟨?_, rfl⟩
  cases file <;> rfl

/-- Literal append fact used to rewrite the `vNone` banner text. -/
theorem append_vNone : (" v" ++ "None" : String) = " vNone" := by
  decide

/-- Literal append fact used to rewrite the `None` URL line. -/
theorem append_urlNone : ("  " ++ "None" : String) = "  None" := by
  decide

/-- C10: a parser constructed without the `ver` (resp. `url`) keyword stores
`none`, and print_version / print_usage still succeed, rendering the literal
text `None` in the banner. -/
theorem init_without_ver_url_renders_none (prog : String) :
    (CustomArgParser.init prog none none)._version = none ∧
    (CustomArgParser.init prog none none)._url = none ∧
    (CustomArgParser.print_version (CustomArgParser.init prog none none)).2
        = colour (prog ++ " vNone") "blue" ++ "\n" ∧
    (CustomArgParser.print_usage (CustomArgParser.init prog none none) none).2
        = String.intercalate "\n"
            ["  " ++ colour (prog ++ " vNone") "blue", "  None", ""] := by
  refine ⟨rfl, rfl, ?_, ?_⟩
  · simp only [CustomArgParser.print_version, CustomArgParser.init, pyStr]
    rw [String.append_assoc, append_vNone]
  · simp only [CustomArgParser.print_usage, CustomArgParser.init, pyStr]
    rw [String.append_assoc, append_vNone, append_urlNone]

/-- C9: with title `demo` and version `1.2.3`, the print_version output is
the single line `demo v1.2.3` once colour codes are stripped, and calling
print_version twice produces two identical banner lines with no state change
between the calls. -/
theorem print_version_demo_roundtrip_idempotent :
    uncolour (CustomArgParser.print_version
        (CustomArgParser.init "demo" (some "1.2.3") none)).2 = "demo v1.2.3" ++ "\n" ∧
    (CustomArgParser.print_version
        ((CustomArgParser.print_version
            (CustomArgParser.init "demo" (some "1.2.3") none)).1)).2
      = (CustomArgParser.print_version
            (CustomArgParser.init "demo" (some "1.2.3") none)).2 ∧
    (CustomArgParser.print_version
        (CustomArgParser.init "demo" (some "1.2.3") none)).1
      = CustomArgParser.init "demo" (some "1.2.3") none :=
  ⟨by decide, rfl, rfl⟩

/-- C4: a domain exception raised in the scoped block logs its message (only
when non-empty) and the fixed controlled-exit message to the default
channel, writes one structured block (header, 80 `=`, exception type name,
message, 80 `_`, traceback, closing 80 `=`) to the warnings channel, and
exits with code 1. -/
theorem jamParser_domain_exception (p : CustomArgParser) (title version : String)
    (a : String) (rest : List String) (args : Args) (tyName msg tb : String)
    (h : a ∉ versionFlags) :
    (jamParser p title version (a :: rest) (.ok args)
        (.raised (.jam tyName msg)) tb).1.defaultLog
      = (if msg.length > 0 then [msg] else []) ++
          ["Controlled exit resulting from an unrecoverable error or warning (see warnings.log)."] ∧
    (jamParser p title version (a :: rest) (.ok args)
        (.raised (.jam tyName msg)) tb).1.warnLog
      = ["Controlled exit resulting from an unrecoverable error or warning.\n\n"
           ++ String.mk (List.replicate 80 '=') ++ "\n"
           ++ "EXCEPTION: " ++ tyName ++ "\n"
           ++ "  MESSAGE: " ++ msg ++ "\n"
           ++ String.mk (List.replicate 80 '_') ++ "\n\n"
           ++ tb
           ++ String.mk (List.replicate 80 '=')] ∧
    (jamParser p title version (a :: rest) (.ok args)
        (.raised (.jam tyName msg)) tb).2 = .exited 1 := by
  simp [jamParser, h, warnBlock, sep80]

/-- Witness for C4 at the domain exception message `bad config`. -/
theorem jamParser_domain_exception_witness :
    ("--x" ∉ versionFlags) ∧
    (jamParser demoP "demo" "1.2.3" ["--x"] (.ok demoArgs)
        (.raised (.jam "JAMException" "bad config")) "tb").2 = .exited 1 :=
  ⟨by decide,
   (jamParser_domain_exception demoP "demo" "1.2.3" "--x" [] demoArgs
      "JAMException" "bad config" "tb" (by decide)).2.2⟩

/-- C5: a non-domain, non-interrupt exception produces a warnings-channel
block identical to the domain-exception block for the same data, while the
default channel's closing line reads the uncontrolled-exit variant; the
process exits with code 1. -/
theorem jamParser_unexpected_exception (p : CustomArgParser) (title version : String)
    (a : String) (rest : List String) (args : Args) (tyName msg tb : String)
    (h : a ∉ versionFlags) :
    (jamParser p title version (a :: rest) (.ok args)
        (.raised (.other tyName msg)) tb).1.warnLog
      = (jamParser p title version (a :: rest) (.ok args)
            (.raised (.jam tyName msg)) tb).1.warnLog ∧
    (jamParser p title version (a :: rest) (.ok args)
        (.raised (.other tyName msg)) tb).1.defaultLog
      = (if msg.length > 0 then [msg] else []) ++
          ["Uncontrolled exit resulting from an unexpected error (see warnings.log)."] ∧
    (jamParser p title version (a :: rest) (.ok args)
        (.raised (.other tyName msg)) tb).2 = .exited 1 := by
  simp [jamParser, h]

/-- Witness for C5 at a division-by-zero style exception. -/
theorem jamParser_unexpected_exception_witness :
    ("--x" ∉ versionFlags) ∧
    (jamParser demoP "demo" "1.2.3" ["--x"] (.ok demoArgs)
        (.raised (.other "ZeroDivisionError" "division by zero")) "tb").2
      = .exited 1 :=
  ⟨by decide,
   (jamParser_unexpected_exception demoP "demo" "1.2.3" "--x" [] demoArgs
      "ZeroDivisionError" "division by zero" "tb" (by decide)).2.2⟩

/-- A string starting with the bracket character is never empty, so the
truthiness test in `exit` always writes the bracketed error message. -/
theorem bracket_prefix_ne_empty (y : String) : ("[" ++ y) ≠ "" := by
  intro h
  have h2 := congrArg String.length h
  rw [String.length_append] at h2
  have h3 : ("[" : String).length = 1 := rfl
  have h4 : ("" : String).length = 0 := rfl
  rw [h3, h4] at h2
  omega

/-- C6: `error(message)` writes the usage banner to standard error followed
by the bracketed `[<prog>] Error: <message>` text coloured red, and
terminates via exit() with status 2; the run guard's grammar-rejection path
produces exactly these standard-error writes and exit code 2. -/
theorem customArgParser_error_exit2 (p : CustomArgParser) (m : String) :
    (CustomArgParser.error p m).1
      = (CustomArgParser.print_usage p (some OutStream.stderr)).2
          ++ colour ("[" ++ p.prog ++ "] Error: " ++ m ++ "\n") "red" ++ "\n" ∧
    (CustomArgParser.error p m).2 = 2 ∧
    (∀ (title version : String) (a : String) (rest : List String)
        (body : BodyResult) (tb : String), a ∉ versionFlags →
      jamParser p title version (a :: rest) (.reject m) body tb
        = (⟨"", (CustomArgParser.error p m).1, [], [], none, 1, none⟩, .exited 2)) := by
  refine ⟨?_, rfl, ?_⟩
  · simp [CustomArgParser.error, CustomArgParser.exit,
      bracket_prefix_ne_empty, String.append_assoc]
  · intro title version a rest body tb h
    simp [jamParser, h]
    rfl

/-- Witness for C6 at the rejected message `boom`. -/
theorem customArgParser_error_exit2_witness :
    ("--bad" ∉ versionFlags) ∧
    (jamParser demoP "t" "v" ["--bad"] (.reject "boom") .ok "").2 = .exited 2 :=
  ⟨by decide,
   by rw [(customArgParser_error_exit2 demoP "boom").2.2 "t" "v" "--bad" [] .ok ""
      (by decide)]⟩

/-- C1: every exception the scoped caller block raises is caught at the run
guard's outer boundary and maps to exit code 1; exit code 0 occurs only on
the version-query path, and exit code 2 only when the grammar engine rejects
the argument vector. -/
theorem jamParser_run_guard_boundary (p : CustomArgParser) (title version : String)
    (argvTail : List String) (parse : ParseOutcome) (body : BodyResult) (tb : String) :
    (∀ e, body = .raised e → scopedBlockRuns argvTail parse →
        (jamParser p title version argvTail parse body tb).2 = .exited 1) ∧
    ((jamParser p title version argvTail parse body tb).2 = .exited 0 →
        ∃ a rest, argvTail = a :: rest ∧ a ∈ versionFlags) ∧
    ((jamParser p title version argvTail parse body tb).2 = .exited 2 →
        ∃ m, parse = .reject m) := by
  rcases argvTail with _ | ⟨a, rest⟩
  · refine ⟨?_, ?_, ?_⟩
    · rintro e he ⟨a, r, args, habs, -, -⟩
      exact absurd habs (by simp)
    · intro h
      simp [jamParser] at h
    · intro h
      simp [jamParser] at h
  · by_cases hv : a ∈ versionFlags
    · refine ⟨?_, ?_, ?_⟩
      · rintro e he ⟨a2, r2, args, heq, hnot, -⟩
        injection heq with h1 h2
        exact absurd hv (h1 ▸ hnot)
      · intro h
        exact ⟨a, rest, rfl, hv⟩
      · intro h
        simp [jamParser, hv] at h
    · cases parse with
      | reject m =>
        refine ⟨?_, ?_, ?_⟩
        · rintro e he ⟨a2, r2, args, -, -, hok⟩
          exact absurd hok (by simp)
        · intro h
          simp [jamParser, hv, CustomArgParser.error, CustomArgParser.exit] at h
        · intro h
          exact ⟨m, rfl⟩
      | ok args =>
        cases body with
        | ok =>
          refine ⟨?_, ?_, ?_⟩
          · rintro e he -
            exact absurd he (by simp)
          · intro h
            simp [jamParser, hv] at h
          · intro h
            simp [jamParser, hv] at h
        | raised e =>
          refine ⟨fun e2 he2 hrun => ?_, fun h => ?_, fun h => ?_⟩
          · cases e <;> simp [jamParser, hv]
          · cases e <;> simp [jamParser, hv] at h
          · cases e <;> simp [jamParser, hv] at h

/-- Witness for C1: an unexpected exception on the successful parse path
exits with code 1. -/
theorem jamParser_run_guard_boundary_witness :
    (jamParser demoP "demo" "1.2.3" ["--x"] (.ok demoArgs)
        (.raised (.other "ValueError" "oops")) "tb").2 = .exited 1 :=
  (jamParser_run_guard_boundary demoP "demo" "1.2.3" ["--x"] (.ok demoArgs)
      (.raised (.other "ValueError" "oops")) "tb").1
    (.other "ValueError" "oops") rfl
    ⟨"--x", [], demoArgs, rfl, by decide, rfl⟩

end Corejam
